import Mathlib

/-!
Verification of the live progress client and HTTP retry layer of the
paper-agent dashboard.

The development embeds, from the source:
  * the `TaskProgress` / status payload data model (`types/api.ts`);
  * the WebSocket `onmessage` handlers of the `Analysis` page and the
    `TaskDetail` page (the two call sites of the live progress client),
    as pure functions from client state and an inbound frame to the new
    state plus the externally observable effects;
  * the connection-lifecycle logic (`onopen`/`onclose` handlers, the
    reconnect timer, and the `useEffect` cleanup) as a step function on
    an explicit connection-handle state;
  * `fetchApi`'s retry loop (`lib/api.ts`), parametrised by the outcome
    of each attempt.
-/

namespace PaperAgent

/-- JS string truthiness for `x || dflt`: `undefined` and the empty string
fall through to the default. -/
def jsStringOr : Option String → String → String
  | none, dflt => dflt
  | some s, dflt => if s = "" then dflt else s

/-- The `TaskProgress` payload (`types/api.ts`): the shape held in the
client's snapshot slot and carried by `progress` messages. -/
structure TaskProgress where
  task_id : String
  stage : String
  progress : Int
  message : String
  current_paper : Option String
  processed : Int
  total : Int
  timestamp : String
deriving Repr, DecidableEq

/-- The fields of the `status` message payload (a `TaskStatusResponse`)
that the handlers read. -/
structure StatusData where
  task_id : String
  stage : String
  progress : Int
  current_paper_title : Option String
  processed_papers : Int
  total_papers : Int
  updated_at : Option String
deriving Repr, DecidableEq

/-- The state the `onmessage` handlers can observe and update: the held
snapshot (`taskProgress`, the store slot in `TaskDetail`, the local
`useState`/ref pair in `Analysis`) and the store's connectivity flag. -/
structure ClientState where
  taskProgress : Option TaskProgress
  wsConnected : Bool
deriving Repr, DecidableEq

/-- Externally observable effects of one `onmessage` invocation: frames
sent back on the socket, calls to `refetchActiveTask`, query-cache
invalidation keys, whether the handler closed the connection, and HTTP
fetches the handler performed itself. -/
structure Effects where
  sent : List String
  refetchActiveTask : Nat
  invalidations : List String
  closedConnection : Bool
  httpFetches : List String
deriving Repr, DecidableEq

/-- No observable effect. -/
def noEffects : Effects :=
  { sent := [], refetchActiveTask := 0, invalidations := [],
    closedConnection := false, httpFetches := [] }

/-- A successfully parsed JSON envelope (`WSMessage`): the `type`
discriminator with the payload the handlers read. -/
inductive ParsedMessage where
  | progressMsg (d : TaskProgress)
  | statusMsg (d : StatusData)
  | completedMsg
  | errMsg
deriving Repr, DecidableEq

/-- An inbound frame as the handlers see it: the literal keep-alive texts
`"ping"`/`"pong"`, a body on which `JSON.parse` throws, or a parsed
envelope. -/
inductive Frame where
  | ping
  | pong
  | unparseable
  | parsed (m : ParsedMessage)
deriving Repr, DecidableEq

/-- The snapshot both `status` branches build from a status payload
(`Analysis` lines 2711–2720, `TaskDetail` lines 1720–1729); `now` stands
for `new Date().toISOString()`. -/
def snapshotOfStatus (now : String) (sd : StatusData) : TaskProgress :=
  { task_id := sd.task_id
    stage := sd.stage
    progress := sd.progress
    message := "Processing " ++ jsStringOr sd.current_paper_title "..."
    current_paper := sd.current_paper_title
    processed := sd.processed_papers
    total := sd.total_papers
    timestamp := jsStringOr sd.updated_at now }

/-- The `Analysis` page's `ws.onmessage` handler (part_002 lines
2694–2731). `ping` is answered with one `pong`; `pong` and unparseable
bodies are ignored; `progress` replaces the snapshot unconditionally;
`status` replaces it only when no snapshot is held or the incoming
`processed_papers` strictly exceeds the held `processed`; `completed`
clears the snapshot, calls `refetchActiveTask()` once and invalidates the
`tasks` query. -/
def analysisOnMessage (now : String) (s : ClientState) : Frame → ClientState × Effects
  | .ping => (s, { noEffects with sent := ["pong"] })
  | .pong => (s, noEffects)
  | .unparseable => (s, noEffects)
  | .parsed m =>
    match m with
    | .progressMsg d => ({ s with taskProgress := some d }, noEffects)
    | .statusMsg sd =>
      match s.taskProgress with
      | none => ({ s with taskProgress := some (snapshotOfStatus now sd) }, noEffects)
      | some cp =>
        if sd.processed_papers > cp.processed then
          ({ s with taskProgress := some (snapshotOfStatus now sd) }, noEffects)
        else (s, noEffects)
    | .completedMsg =>
      ({ s with taskProgress := none },
       { noEffects with refetchActiveTask := 1, invalidations := ["tasks"] })
    | .errMsg => (s, noEffects)

/-- The `TaskDetail` page's `ws.onmessage` handler (part_002 lines
1702–1740). Identical to `Analysis` on `ping`/`pong`, unparseable bodies,
`progress` and `status`; on `completed` it invalidates the four task
queries but leaves the held snapshot untouched. -/
def taskDetailOnMessage (now : String) (s : ClientState) : Frame → ClientState × Effects
  | .ping => (s, { noEffects with sent := ["pong"] })
  | .pong => (s, noEffects)
  | .unparseable => (s, noEffects)
  | .parsed m =>
    match m with
    | .progressMsg d => ({ s with taskProgress := some d }, noEffects)
    | .statusMsg sd =>
      match s.taskProgress with
      | none => ({ s with taskProgress := some (snapshotOfStatus now sd) }, noEffects)
      | some cp =>
        if sd.processed_papers > cp.processed then
          ({ s with taskProgress := some (snapshotOfStatus now sd) }, noEffects)
        else (s, noEffects)
    | .completedMsg =>
      (s, { noEffects with
              invalidations := ["taskStatus", "taskResults", "taskAnalytics", "activeTask"] })
    | .errMsg => (s, noEffects)

/-- Process a whole sequence of inbound frames through the `Analysis`
handler, keeping only the state. -/
def analysisRun (now : String) (s : ClientState) : List Frame → ClientState
  | [] => s
  | f :: fs => analysisRun now (analysisOnMessage now s f).1 fs

/-- Process a whole sequence of inbound frames through the `TaskDetail`
handler, keeping only the state. -/
def taskDetailRun (now : String) (s : ClientState) : List Frame → ClientState
  | [] => s
  | f :: fs => taskDetailRun now (taskDetailOnMessage now s f).1 fs

/-! ## Connection lifecycle

The `useEffect` body at each call site captures `isMounted`, the
reconnect-timer variable and the task's running status; `connect()`
installs fresh handlers on a new socket; the cleanup sets
`isMounted = false`, clears the timer, nulls `ws.onclose` and closes the
socket. We model this as a step function on an explicit handle state. -/

/-- The state of one connection handle: the closure's `isMounted` flag,
the captured `status === "running"` check, the store's `wsConnected`
flag, whether `ws.onclose` has been nulled, whether `ws.close()` has been
called, and the pending reconnect timer (with its delay in ms). -/
structure Handle where
  isMounted : Bool
  taskRunning : Bool
  wsConnected : Bool
  onCloseCleared : Bool
  wsClosed : Bool
  pendingReconnect : Option Nat
deriving Repr, DecidableEq

/-- Events delivered to a connection handle: the transport's open and
close events, the reconnect timer firing, and the effect cleanup
(`stop`). -/
inductive LifeEvent where
  | transportOpen
  | transportClose
  | timerFire
  | teardown
deriving Repr, DecidableEq

/-- The effect cleanup at both call sites (part_002 lines 1761–1768 and
2751–2758): set `isMounted = false`, clear the pending reconnect timer,
null `ws.onclose`, then call `ws.close()`. -/
def stop (h : Handle) : Handle :=
  { h with isMounted := false, pendingReconnect := none,
           onCloseCleared := true, wsClosed := true }

/-- The `connect()` closure (part_002 lines 1692–1757 and 2685–2747):
returns immediately when `isMounted` is false, otherwise opens a fresh
socket with live handlers. -/
def connect (h : Handle) : Handle :=
  if h.isMounted then { h with onCloseCleared := false, wsClosed := false }
  else h

/-- The reconnect timer firing: only a still-pending timer runs its
callback, which is `connect()`. -/
def fireTimer (h : Handle) : Handle :=
  match h.pendingReconnect with
  | none => h
  | some _ => connect { h with pendingReconnect := none }

/-- The `TaskDetail` `ws.onopen` body (lines 1697–1700):
`setWsConnected(true)`. -/
def taskDetailOnOpen (h : Handle) : Handle :=
  { h with wsConnected := true }

/-- The `Analysis` `ws.onopen` body (lines 2690–2692): only a
`console.log`, no state change. -/
def analysisOnOpen (h : Handle) : Handle := h

/-- The `TaskDetail` `ws.onclose` body (lines 1746–1756):
`setWsConnected(false)`, then schedule a 2000 ms reconnect when still
mounted and the task is still running. -/
def taskDetailOnClose (h : Handle) : Handle :=
  let h1 := { h with wsConnected := false }
  if h1.isMounted && h1.taskRunning then { h1 with pendingReconnect := some 2000 }
  else h1

/-- The `Analysis` `ws.onclose` body (lines 2737–2746): schedule a
2000 ms reconnect when still mounted and the task is still running; no
connectivity-flag update. -/
def analysisOnClose (h : Handle) : Handle :=
  if h.isMounted && h.taskRunning then { h with pendingReconnect := some 2000 }
  else h

/-- Event delivery for the `TaskDetail` handle: a close event reaches the
handler only while `ws.onclose` has not been nulled. -/
def taskDetailStep (h : Handle) : LifeEvent → Handle
  | .transportOpen => taskDetailOnOpen h
  | .transportClose => if h.onCloseCleared then h else taskDetailOnClose h
  | .timerFire => fireTimer h
  | .teardown => stop h

/-- Event delivery for the `Analysis` handle. -/
def analysisStep (h : Handle) : LifeEvent → Handle
  | .transportOpen => analysisOnOpen h
  | .transportClose => if h.onCloseCleared then h else analysisOnClose h
  | .timerFire => fireTimer h
  | .teardown => stop h

/-- Run a sequence of lifecycle events through the `TaskDetail` handle. -/
def taskDetailTrace (h : Handle) : List LifeEvent → Handle
  | [] => h
  | e :: evs => taskDetailTrace (taskDetailStep h e) evs

/-- Run a sequence of lifecycle events through the `Analysis` handle. -/
def analysisTrace (h : Handle) : List LifeEvent → Handle
  | [] => h
  | e :: evs => analysisTrace (analysisStep h e) evs

/-- One unexpected-close/reconnect cycle for the `TaskDetail` handle. -/
def taskDetailCycle (h : Handle) : Handle :=
  taskDetailStep (taskDetailStep h .transportClose) .timerFire

/-- Iterate `n` close/reconnect cycles on the `TaskDetail` handle. -/
def taskDetailCycles : Nat → Handle → Handle
  | 0, h => h
  | n + 1, h => taskDetailCycles n (taskDetailCycle h)

/-- One unexpected-close/reconnect cycle for the `Analysis` handle. -/
def analysisCycle (h : Handle) : Handle :=
  analysisStep (analysisStep h .transportClose) .timerFire

/-- Iterate `n` close/reconnect cycles on the `Analysis` handle. -/
def analysisCycles : Nat → Handle → Handle
  | 0, h => h
  | n + 1, h => analysisCycles n (analysisCycle h)

/-! ## The HTTP retry loop (`fetchApi`, part_001 lines 26–60) -/

/-- The outcome of one `fetch` attempt as seen by `fetchApi`'s `try`
block: `fetch` rejects with a `TypeError`; the response is not `ok`
(with `body`: `none` when `response.json()` rejects, `some d` when it
parses with detail field `d`); or the call succeeds with value `v`. -/
inductive FetchOutcome (α : Type) where
  | netError
  | httpError (status : Nat) (body : Option (Option String))
  | success (v : α)
deriving Repr, DecidableEq

/-- What `fetchApi` throws: a propagated network `TypeError`, or the
`Error` built from a non-ok response. -/
inductive ApiError where
  | typeError
  | httpMsg (msg : String)
deriving Repr, DecidableEq

/-- The message of the `Error` thrown on a non-ok response (part_001
lines 43–46): the parsed body's `detail` when truthy (`"Unknown error"`
when the body fails to parse), else `"HTTP error <status>"`. -/
def httpErrorMessage (status : Nat) (body : Option (Option String)) : String :=
  let detail : Option String :=
    match body with
    | none => some "Unknown error"
    | some d => d
  jsStringOr detail ("HTTP error " ++ toString status)

/-- The body of `fetchApi`'s `for` loop, with `remaining = retries -
attempt` (so `remaining = 0` exactly when `attempt < retries` fails).
Returns the result together with the list of delays (ms) waited before
retries. Only a `TypeError` (a network error) with attempts left
triggers the 1000 ms wait and retry; every other throw propagates. -/
def fetchApiLoop (outcomes : Nat → FetchOutcome α) : Nat → Nat → Except ApiError α × List Nat
  | attempt, remaining =>
    match outcomes attempt with
    | .success v => (Except.ok v, [])
    | .httpError st body => (Except.error (ApiError.httpMsg (httpErrorMessage st body)), [])
    | .netError =>
      match remaining with
      | 0 => (Except.error ApiError.typeError, [])
      | r + 1 =>
        let rest := fetchApiLoop outcomes (attempt + 1) r
        (rest.1, 1000 :: rest.2)

/-- `fetchApi` as every call site invokes it: with the default
`retries = 2`, starting from attempt 0. -/
def fetchApi (outcomes : Nat → FetchOutcome α) : Except ApiError α × List Nat :=
  fetchApiLoop outcomes 0 2

/-! ## Concrete payloads used in scenarios and witnesses -/

/-- A concrete `TaskProgress` payload with processed count `n`. -/
def tpOf (n : Int) : TaskProgress :=
  { task_id := "t1", stage := "parsing", progress := 50, message := "m",
    current_paper := none, processed := n, total := 10, timestamp := "ts" }

/-- A concrete status payload with processed count `n`. -/
def sdOf (n : Int) : StatusData :=
  { task_id := "t1", stage := "parsing", progress := 50,
    current_paper_title := some "Paper A", processed_papers := n, total_papers := 10,
    updated_at := some "2025-01-01T00:00:00" }

/-- A freshly connected, mounted handle for a running task. -/
def activeHandle : Handle :=
  { isMounted := true, taskRunning := true, wsConnected := false,
    onCloseCleared := false, wsClosed := false, pendingReconnect := none }

/-! ## Helper lemmas -/

/-- A handle the cleanup has run on: unmounted, no pending reconnect,
close handler nulled. -/
def StoppedInv (h : Handle) : Prop :=
  h.isMounted = false ∧ h.pendingReconnect = none ∧ h.onCloseCleared = true

/-- A mounted handle for a running task whose close handler is live. -/
def ActiveInv (h : Handle) : Prop :=
  h.isMounted = true ∧ h.taskRunning = true ∧ h.onCloseCleared = false

theorem taskDetailStep_stopped (h : Handle) (e : LifeEvent) (hs : StoppedInv h) :
    StoppedInv (taskDetailStep h e) := by
  obtain ⟨hm, hp, hc⟩ := hs
  cases e <;>
    simp [taskDetailStep, taskDetailOnOpen, taskDetailOnClose, fireTimer, connect,
      stop, StoppedInv, hm, hp, hc]

theorem analysisStep_stopped (h : Handle) (e : LifeEvent) (hs : StoppedInv h) :
    StoppedInv (analysisStep h e) := by
  obtain ⟨hm, hp, hc⟩ := hs
  cases e <;>
    simp [analysisStep, analysisOnOpen, analysisOnClose, fireTimer, connect,
      stop, StoppedInv, hm, hp, hc]

theorem taskDetailTrace_stopped (evs : List LifeEvent) :
    ∀ h, StoppedInv h → StoppedInv (taskDetailTrace h evs) := by
  induction evs with
  | nil => intro h hs; exact hs
  | cons e evs ih => intro h hs; exact ih _ (taskDetailStep_stopped h e hs)

theorem analysisTrace_stopped (evs : List LifeEvent) :
    ∀ h, StoppedInv h → StoppedInv (analysisTrace h evs) := by
  induction evs with
  | nil => intro h hs; exact hs
  | cons e evs ih => intro h hs; exact ih _ (analysisStep_stopped h e hs)

theorem taskDetailCycle_active (h : Handle) (ha : ActiveInv h) :
    ActiveInv (taskDetailCycle h) := by
  obtain ⟨hm, hr, hc⟩ := ha
  simp [taskDetailCycle, taskDetailStep, taskDetailOnClose, fireTimer, connect,
    ActiveInv, hm, hr, hc]

theorem analysisCycle_active (h : Handle) (ha : ActiveInv h) :
    ActiveInv (analysisCycle h) := by
  obtain ⟨hm, hr, hc⟩ := ha
  simp [analysisCycle, analysisStep, analysisOnClose, fireTimer, connect,
    ActiveInv, hm, hr, hc]

theorem taskDetailCycles_active (n : Nat) :
    ∀ h, ActiveInv h → ActiveInv (taskDetailCycles n h) := by
  induction n with
  | zero => intro h ha; exact ha
  | succ n ih => intro h ha; exact ih _ (taskDetailCycle_active h ha)

theorem analysisCycles_active (n : Nat) :
    ∀ h, ActiveInv h → ActiveInv (analysisCycles n h) := by
  induction n with
  | zero => intro h ha; exact ha
  | succ n ih => intro h ha; exact ih _ (analysisCycle_active h ha)

/-- A run of status frames none of which beats the held processed count
leaves the `Analysis` state untouched. -/
theorem analysisRun_status_fixed (now : String) (d : TaskProgress) (sds : List StatusData) :
    ∀ s : ClientState, s.taskProgress = some d →
      (∀ sd ∈ sds, sd.processed_papers ≤ d.processed) →
      analysisRun now s (sds.map fun sd => Frame.parsed (ParsedMessage.statusMsg sd)) = s := by
  induction sds with
  | nil => intro s _ _; rfl
  | cons sd sds ih =>
    intro s hs hle
    have hnotgt : ¬ sd.processed_papers > d.processed := not_lt.mpr (hle sd (by simp))
    have hstep : (analysisOnMessage now s (Frame.parsed (ParsedMessage.statusMsg sd))).1 = s := by
      simp [analysisOnMessage, hs, hnotgt]
    show analysisRun now (analysisOnMessage now s (Frame.parsed (ParsedMessage.statusMsg sd))).1
        (sds.map fun sd => Frame.parsed (ParsedMessage.statusMsg sd)) = s
    rw [hstep]
    exact ih s hs fun x hx => hle x (List.mem_cons_of_mem _ hx)

/-- A run of status frames none of which beats the held processed count
leaves the `TaskDetail` state untouched. -/
theorem taskDetailRun_status_fixed (now : String) (d : TaskProgress) (sds : List StatusData) :
    ∀ s : ClientState, s.taskProgress = some d →
      (∀ sd ∈ sds, sd.processed_papers ≤ d.processed) →
      taskDetailRun now s (sds.map fun sd => Frame.parsed (ParsedMessage.statusMsg sd)) = s := by
  induction sds with
  | nil => intro s _ _; rfl
  | cons sd sds ih =>
    intro s hs hle
    have hnotgt : ¬ sd.processed_papers > d.processed := not_lt.mpr (hle sd (by simp))
    have hstep : (taskDetailOnMessage now s (Frame.parsed (ParsedMessage.statusMsg sd))).1 = s := by
      simp [taskDetailOnMessage, hs, hnotgt]
    show taskDetailRun now (taskDetailOnMessage now s (Frame.parsed (ParsedMessage.statusMsg sd))).1
        (sds.map fun sd => Frame.parsed (ParsedMessage.statusMsg sd)) = s
    rw [hstep]
    exact ih s hs fun x hx => hle x (List.mem_cons_of_mem _ hx)

theorem analysisRun_append (now : String) (fs gs : List Frame) :
    ∀ s, analysisRun now s (fs ++ gs) = analysisRun now (analysisRun now s fs) gs := by
  induction fs with
  | nil => intro s; rfl
  | cons f fs ih => intro s; exact ih (analysisOnMessage now s f).1

theorem taskDetailRun_append (now : String) (fs gs : List Frame) :
    ∀ s, taskDetailRun now s (fs ++ gs) = taskDetailRun now (taskDetailRun now s fs) gs := by
  induction fs with
  | nil => intro s; rfl
  | cons f fs ih => intro s; exact ih (taskDetailOnMessage now s f).1

/-! ## Claim theorems -/

/-- C1: Status-message recency guard. At both call sites, a `status`
message updates the held snapshot only when no snapshot is held or the
incoming `processed_papers` strictly exceeds the held `processed`: with
no snapshot held the message is always accepted; with a held snapshot of
processed count `N`, `processed ≤ N` leaves the state unchanged and
`processed > N` replaces the snapshot. -/
theorem status_recency_guard (now : String) (s : ClientState) (sd : StatusData) :
    (s.taskProgress = none →
      (analysisOnMessage now s (Frame.parsed (ParsedMessage.statusMsg sd))).1.taskProgress
          = some (snapshotOfStatus now sd) ∧
      (taskDetailOnMessage now s (Frame.parsed (ParsedMessage.statusMsg sd))).1.taskProgress
          = some (snapshotOfStatus now sd)) ∧
    (∀ cp, s.taskProgress = some cp → sd.processed_papers ≤ cp.processed →
      (analysisOnMessage now s (Frame.parsed (ParsedMessage.statusMsg sd))).1 = s ∧
      (taskDetailOnMessage now s (Frame.parsed (ParsedMessage.statusMsg sd))).1 = s) ∧
    (∀ cp, s.taskProgress = some cp → sd.processed_papers > cp.processed →
      (analysisOnMessage now s (Frame.parsed (ParsedMessage.statusMsg sd))).1.taskProgress
          = some (snapshotOfStatus now sd) ∧
      (taskDetailOnMessage now s (Frame.parsed (ParsedMessage.statusMsg sd))).1.taskProgress
          = some (snapshotOfStatus now sd)) := by
  refine ⟨?_, ?_, ?_⟩
  · intro hnone
    constructor <;> simp [analysisOnMessage, taskDetailOnMessage, hnone]
  · intro cp hcp hle
    have hnotgt : ¬ sd.processed_papers > cp.processed := not_lt.mpr hle
    constructor <;> simp [analysisOnMessage, taskDetailOnMessage, hcp, hnotgt]
  · intro cp hcp hgt
    constructor <;> simp [analysisOnMessage, taskDetailOnMessage, hcp, hgt]

/-- Witness for C1: with a held snapshot of processed count 5, a status
message with processed count 4 leaves the `Analysis` state unchanged. -/
theorem status_recency_guard_witness :
    (analysisOnMessage "T" { taskProgress := some (tpOf 5), wsConnected := false }
        (Frame.parsed (ParsedMessage.statusMsg (sdOf 4)))).1
      = { taskProgress := some (tpOf 5), wsConnected := false } :=
  ((status_recency_guard "T" { taskProgress := some (tpOf 5), wsConnected := false }
      (sdOf 4)).2.1 (tpOf 5) rfl (by decide)).1

/-- C2: Progress messages always win. At both call sites, after any
prefix of messages, a `progress` message followed by status messages
whose processed counts do not exceed its own leaves the held snapshot
equal to that `progress` payload; in particular the scenario
status(processed 3), progress(processed 5), status(processed 4) ends with
a held snapshot whose processed count is 5. -/
theorem progress_always_wins (now : String) (s : ClientState) (pre : List Frame)
    (d : TaskProgress) (sds : List StatusData)
    (hle : ∀ sd ∈ sds, sd.processed_papers ≤ d.processed) :
    (analysisRun now s
        (pre ++ Frame.parsed (ParsedMessage.progressMsg d) ::
          sds.map fun sd => Frame.parsed (ParsedMessage.statusMsg sd))).taskProgress
        = some d ∧
    (taskDetailRun now s
        (pre ++ Frame.parsed (ParsedMessage.progressMsg d) ::
          sds.map fun sd => Frame.parsed (ParsedMessage.statusMsg sd))).taskProgress
        = some d ∧
    analysisRun "T" { taskProgress := none, wsConnected := false }
        [Frame.parsed (ParsedMessage.statusMsg (sdOf 3)),
         Frame.parsed (ParsedMessage.progressMsg (tpOf 5)),
         Frame.parsed (ParsedMessage.statusMsg (sdOf 4))]
      = { taskProgress := some (tpOf 5), wsConnected := false } ∧
    (tpOf 5).processed = 5 := by
  refine ⟨?_, ?_, by decide, by decide⟩
  · rw [analysisRun_append]
    show (analysisRun now
        (analysisOnMessage now (analysisRun now s pre)
          (Frame.parsed (ParsedMessage.progressMsg d))).1
        (sds.map fun sd => Frame.parsed (ParsedMessage.statusMsg sd))).taskProgress = some d
    rw [analysisRun_status_fixed now d sds _ rfl hle]
    rfl
  · rw [taskDetailRun_append]
    show (taskDetailRun now
        (taskDetailOnMessage now (taskDetailRun now s pre)
          (Frame.parsed (ParsedMessage.progressMsg d))).1
        (sds.map fun sd => Frame.parsed (ParsedMessage.statusMsg sd))).taskProgress = some d
    rw [taskDetailRun_status_fixed now d sds _ rfl hle]
    rfl

/-- Witness for C2: the scenario sequence status(3), progress(5),
status(4) through the `Analysis` handler, instantiating the theorem with
prefix `[status(3)]` and trailing statuses `[status(4)]`. -/
theorem progress_always_wins_witness :
    (analysisRun "T" { taskProgress := none, wsConnected := false }
        ([Frame.parsed (ParsedMessage.statusMsg (sdOf 3))] ++
          Frame.parsed (ParsedMessage.progressMsg (tpOf 5)) ::
            ([sdOf 4].map fun sd => Frame.parsed (ParsedMessage.statusMsg sd)))).taskProgress
      = some (tpOf 5) :=
  (progress_always_wins "T" { taskProgress := none, wsConnected := false }
      [Frame.parsed (ParsedMessage.statusMsg (sdOf 3))] (tpOf 5) [sdOf 4]
      (by decide)).1

/-- C3 counterexample: at the `TaskDetail` call site, a `completed`
message leaves a held snapshot in place instead of clearing it — the
snapshot slot still holds the pre-existing snapshot, which is not empty. -/
theorem completed_not_cleared_at_taskdetail :
    (taskDetailOnMessage "T" { taskProgress := some (tpOf 5), wsConnected := true }
        (Frame.parsed ParsedMessage.completedMsg)).1
      = { taskProgress := some (tpOf 5), wsConnected := true } ∧
    (some (tpOf 5) ≠ (none : Option TaskProgress)) :=
  ⟨rfl, by decide⟩

/-- C3 (amended): on a `completed` message, the `Analysis` call site
clears the held snapshot and fires its owner-level refresh
(`refetchActiveTask`) exactly once, together with one `tasks`
invalidation; the `TaskDetail` call site fires its owner-level refresh
(the four query invalidations) but leaves its state, including the held
snapshot, unchanged. Neither site performs any HTTP fetch of results
itself, sends anything, or closes the connection. -/
theorem completed_refresh_behaviour (now : String) (s : ClientState) :
    analysisOnMessage now s (Frame.parsed ParsedMessage.completedMsg)
      = ({ s with taskProgress := none },
         { noEffects with refetchActiveTask := 1, invalidations := ["tasks"] }) ∧
    taskDetailOnMessage now s (Frame.parsed ParsedMessage.completedMsg)
      = (s, { noEffects with
                invalidations := ["taskStatus", "taskResults", "taskAnalytics", "activeTask"] }) ∧
    (analysisOnMessage now s (Frame.parsed ParsedMessage.completedMsg)).2.httpFetches = [] ∧
    (taskDetailOnMessage now s (Frame.parsed ParsedMessage.completedMsg)).2.httpFetches = [] :=
  ⟨rfl, rfl, rfl, rfl⟩

/-- C7: Keep-alive handling at both call sites. An inbound `ping` text
frame elicits exactly one `pong` reply and changes no state; an inbound
`pong` elicits no reply and changes no state. -/
theorem ping_pong_keepalive (now : String) (s : ClientState) :
    analysisOnMessage now s Frame.ping = (s, { noEffects with sent := ["pong"] }) ∧
    analysisOnMessage now s Frame.pong = (s, noEffects) ∧
    taskDetailOnMessage now s Frame.ping = (s, { noEffects with sent := ["pong"] }) ∧
    taskDetailOnMessage now s Frame.pong = (s, noEffects) :=
  ⟨rfl, rfl, rfl, rfl⟩

/-- C8: Malformed-message tolerance at both call sites. A message whose
body fails to parse leaves the whole state (held snapshot and
connectivity flag) unchanged and produces no effect at all: nothing
sent, no refresh, no invalidation, the connection not closed. The
handlers are total functions, so no thrown error reaches the caller. -/
theorem malformed_message_ignored (now : String) (s : ClientState) :
    analysisOnMessage now s Frame.unparseable = (s, noEffects) ∧
    taskDetailOnMessage now s Frame.unparseable = (s, noEffects) ∧
    noEffects.closedConnection = false :=
  ⟨rfl, rfl, rfl⟩

/-- C4: Teardown never triggers reconnection. At both call sites, the
cleanup cancels the pending reconnect timer and nulls the close handler,
so after `stop` no sequence of further events (opens, closes, timer
fires, repeated teardowns) ever leaves a reconnect scheduled; and a
second `stop` is a no-op. -/
theorem stop_prevents_reconnect (h : Handle) (evs : List LifeEvent) :
    (stop h).pendingReconnect = none ∧
    (stop h).onCloseCleared = true ∧
    (taskDetailTrace (stop h) evs).pendingReconnect = none ∧
    (analysisTrace (stop h) evs).pendingReconnect = none ∧
    stop (stop h) = stop h := by
  have hs : StoppedInv (stop h) := ⟨rfl, rfl, rfl⟩
  exact ⟨rfl, rfl, (taskDetailTrace_stopped evs _ hs).2.1,
    (analysisTrace_stopped evs _ hs).2.1, rfl⟩

/-- C5: Reconnection on unexpected close. At both call sites, whenever a
close event reaches a live close handler while the handle is mounted and
the governing task is running, exactly one reconnect is scheduled with a
fixed 2000 ms delay — after any number of previous close/reconnect
cycles, so there is no backoff growth and no retry cap; when the handle
is unmounted or the task is no longer running, the close event schedules
nothing. -/
theorem close_schedules_fixed_reconnect (h : Handle) (n : Nat) :
    (h.isMounted = true → h.taskRunning = true → h.onCloseCleared = false →
      (taskDetailStep (taskDetailCycles n h) .transportClose).pendingReconnect = some 2000 ∧
      (analysisStep (analysisCycles n h) .transportClose).pendingReconnect = some 2000) ∧
    (h.isMounted = false ∨ h.taskRunning = false →
      (taskDetailStep h .transportClose).pendingReconnect = h.pendingReconnect ∧
      (analysisStep h .transportClose).pendingReconnect = h.pendingReconnect) := by
  constructor
  · intro hm hr hc
    obtain ⟨hm1, hr1, hc1⟩ := taskDetailCycles_active n h ⟨hm, hr, hc⟩
    obtain ⟨hm2, hr2, hc2⟩ := analysisCycles_active n h ⟨hm, hr, hc⟩
    constructor
    · simp [taskDetailStep, taskDetailOnClose, hm1, hr1, hc1]
    · simp [analysisStep, analysisOnClose, hm2, hr2, hc2]
  · intro hnot
    by_cases hc : h.onCloseCleared = true
    · simp [taskDetailStep, analysisStep, hc]
    · have hc' : h.onCloseCleared = false := by
        cases hx : h.onCloseCleared
        · rfl
        · exact absurd hx hc
      rcases hnot with hm | hr
      · constructor <;>
          simp [taskDetailStep, analysisStep, taskDetailOnClose, analysisOnClose, hc', hm]
      · constructor <;>
          simp [taskDetailStep, analysisStep, taskDetailOnClose, analysisOnClose, hc', hr]

/-- Witness for C5: after three close/reconnect cycles on a fresh
mounted handle for a running task, a close event still schedules exactly
a 2000 ms reconnect at both call sites. -/
theorem close_schedules_fixed_reconnect_witness :
    (taskDetailStep (taskDetailCycles 3 activeHandle) .transportClose).pendingReconnect
        = some 2000 ∧
    (analysisStep (analysisCycles 3 activeHandle) .transportClose).pendingReconnect
        = some 2000 :=
  (close_schedules_fixed_reconnect activeHandle 3).1 rfl rfl rfl

/-- C9 counterexample: at the `Analysis` call site the transport's open
event does not set any connectivity flag — the handler body is only a
log, so on a concrete handle with the flag false it stays false. -/
theorem analysis_open_sets_no_flag :
    (analysisOnOpen activeHandle).wsConnected = false ∧
    analysisOnOpen activeHandle = activeHandle :=
  ⟨rfl, rfl⟩

/-- C9 (amended): only the `TaskDetail` call site maintains the
connectivity flag: its open handler sets the flag to true and its close
handler sets it to false (through the shared store, which is the owner
notification). The `Analysis` call site's open handler performs no
state change at all, and its close handler leaves the connectivity flag
untouched. -/
theorem connectivity_flag_taskdetail_only (h : Handle) :
    (taskDetailOnOpen h).wsConnected = true ∧
    (taskDetailOnClose h).wsConnected = false ∧
    analysisOnOpen h = h ∧
    (analysisOnClose h).wsConnected = h.wsConnected := by
  refine ⟨rfl, ?_, rfl, ?_⟩
  · by_cases hx : (h.isMounted && h.taskRunning) = true <;>
      simp [taskDetailOnClose, hx]
  · by_cases hx : (h.isMounted && h.taskRunning) = true <;>
      simp [analysisOnClose, hx]

/-! ## Fetch retry claims -/

/-- The per-attempt outcome used to refute the single-retry claim: the
first two attempts fail at network level, the third succeeds. -/
def twoNetFailThenOk : Nat → FetchOutcome Nat :=
  fun i => if i < 2 then FetchOutcome.netError else FetchOutcome.success 7

/-- C6 counterexample: a call whose first two attempts fail at network
level does not propagate an error — `fetchApi` waits 1000 ms twice and
succeeds on the third attempt, so it retries twice, not exactly once. -/
theorem fetch_retries_more_than_once :
    fetchApi twoNetFailThenOk = (Except.ok 7, [1000, 1000]) := rfl

/-- C6 (amended): every HTTP call made through `fetchApi` retries up to
twice on transient network-level failures (the default `retries = 2`
used by every call site), with a fixed 1000 ms delay before each retry,
and propagates the network error to the caller only when all three
attempts fail; every delay it ever waits is 1000 ms and there are at
most two of them. -/
theorem fetch_retry_policy {α : Type} (outcomes : Nat → FetchOutcome α) :
    (outcomes 0 = FetchOutcome.netError → outcomes 1 = FetchOutcome.netError →
      outcomes 2 = FetchOutcome.netError →
      fetchApi outcomes = (Except.error ApiError.typeError, [1000, 1000])) ∧
    (∀ v, outcomes 0 = FetchOutcome.netError → outcomes 1 = FetchOutcome.success v →
      fetchApi outcomes = (Except.ok v, [1000])) ∧
    (fetchApi outcomes).2.length ≤ 2 ∧
    (∀ d ∈ (fetchApi outcomes).2, d = 1000) := by
  refine ⟨?_, ?_, ?_, ?_⟩
  · intro h0 h1 h2
    simp [fetchApi, fetchApiLoop, h0, h1, h2]
  · intro v h0 h1
    simp [fetchApi, fetchApiLoop, h0, h1]
  · cases h0 : outcomes 0 <;> cases h1 : outcomes 1 <;> cases h2 : outcomes 2 <;>
      simp [fetchApi, fetchApiLoop, h0, h1, h2]
  · cases h0 : outcomes 0 <;> cases h1 : outcomes 1 <;> cases h2 : outcomes 2 <;>
      simp [fetchApi, fetchApiLoop, h0, h1, h2]

/-- Witness for C6 (amended): with every attempt failing at network
level, `fetchApi` waits 1000 ms before each of its two retries and then
propagates the network error. -/
theorem fetch_retry_policy_witness :
    fetchApi (fun _ => (FetchOutcome.netError : FetchOutcome Nat))
      = (Except.error ApiError.typeError, [1000, 1000]) :=
  (fetch_retry_policy fun _ => (FetchOutcome.netError : FetchOutcome Nat)).1 rfl rfl rfl

/-- C10: `fetchApi` retries only on network-level failures. A non-ok
HTTP response on the first attempt is never retried: it is converted to
an error carrying the response's detail message when present and
non-empty (`"HTTP error <status>"` when the parsed body has no detail)
and propagated immediately, with no delay; conversely any waited delay
implies the first attempt failed at network level. -/
theorem http_error_no_retry {α : Type} (outcomes : Nat → FetchOutcome α)
    (st : Nat) (body : Option (Option String)) :
    (outcomes 0 = FetchOutcome.httpError st body →
      fetchApi outcomes
        = (Except.error (ApiError.httpMsg (httpErrorMessage st body)), [])) ∧
    ((fetchApi outcomes).2 ≠ [] → outcomes 0 = FetchOutcome.netError) ∧
    httpErrorMessage st (some none) = "HTTP error " ++ toString st ∧
    (∀ d : String, d ≠ "" → httpErrorMessage st (some (some d)) = d) := by
  refine ⟨?_, ?_, rfl, ?_⟩
  · intro h0
    simp [fetchApi, fetchApiLoop, h0]
  · intro hne
    cases h0 : outcomes 0
    · rfl
    · exact absurd (by simp [fetchApi, fetchApiLoop, h0]) hne
    · exact absurd (by simp [fetchApi, fetchApiLoop, h0]) hne
  · intro d hd
    simp [httpErrorMessage, jsStringOr, hd]

/-- Witness for C10: a 404 whose parsed body has no detail field is
propagated immediately as `"HTTP error 404"`, with no delay. -/
theorem http_error_no_retry_witness :
    fetchApi (fun _ => (FetchOutcome.httpError 404 (some none) : FetchOutcome Nat))
        = (Except.error (ApiError.httpMsg (httpErrorMessage 404 (some none))), []) ∧
    httpErrorMessage 404 (some none) = "HTTP error 404" :=
  ⟨(http_error_no_retry (fun _ => (FetchOutcome.httpError 404 (some none) : FetchOutcome Nat))
      404 (some none)).1 rfl,
   (http_error_no_retry (fun _ => (FetchOutcome.httpError 404 (some none) : FetchOutcome Nat))
      404 (some none)).2.2.1⟩

end PaperAgent
